import Mathlib

/-!
# Verification of `scripts/update_data.py` (Warframe relic price pipeline)

Shallow embedding of the price-resolution pipeline:
* a JSON value model with Python truthiness,
* the resilient fetcher `http_json` (modelled over an abstract response
  sequence, one entry per attempt),
* the slug deriver `guess_wm_url_name` / `wm_url_candidates`,
* the price extractor `_median_from_stats_section` /
  `wm_price_from_statistics`,
* the batch resolver `build_prices_from_wm_statistics` and the
  minimum-priced-items gate at the end of `main`.

Python floats are modelled as exact rationals; Python exceptions are
modelled with `Except`.  Network effects are modelled by environments:
the fetcher takes the response each attempt would observe, and the
per-item layers take a map from a slug (`url_name`) to the outcome that
`http_json` produces for that slug's statistics URL.
-/

namespace UpdateData

/-- JSON values as decoded by `json.loads` (`null` is Python `None`).
Numbers are modelled as exact rationals.  Objects are association lists
with unique keys (Python `dict`s parsed from JSON). -/
inductive Json where
  | null : Json
  | bool (b : Bool) : Json
  | num (q : ℚ) : Json
  | str (s : String) : Json
  | arr (xs : List Json) : Json
  | obj (fields : List (String × Json)) : Json

/-- Python truthiness of a decoded JSON value (`bool(x)`):
`None`, `False`, `0`, `""`, `[]`, `{}` are falsy. -/
def Json.truthy : Json → Bool
  | .null => false
  | .bool b => b
  | .num q => q != 0
  | .str s => s != ""
  | .arr xs => !xs.isEmpty
  | .obj fields => !fields.isEmpty

/-- Test for `isinstance(x, dict)`. -/
def Json.isObj : Json → Bool
  | .obj _ => true
  | _ => false

/-- Test for `isinstance(x, list)`. -/
def Json.isArr : Json → Bool
  | .arr _ => true
  | _ => false

/-- Association-list lookup for object fields (first match wins; the
dicts produced by `json.loads` have unique keys). -/
def lookupField : List (String × Json) → String → Option Json
  | [], _ => none
  | (k, v) :: rest, key => if k = key then some v else lookupField rest key

/-- Model of `d.get(key)` on a dict: `some v` when the key is present,
else `none` (Python returns `None`). -/
def Json.lookup : Json → String → Option Json
  | .obj fields, key => lookupField fields key
  | _, _ => none

/-- Model of Python `float(x)` on a decoded JSON value, as an exact
rational.  `float` of an `int` or `float` is the number itself and of a
`bool` is 0 or 1; `float` of `None`, a list or a dict raises
`TypeError`.  A `str` input is modelled as failing: Python would parse
numeric strings, but no string median occurs in the pricing API's
documents and no claim exercises one, so the model treats every string
like a parse failure. -/
def pyFloat : Json → Option ℚ
  | .num q => some q
  | .bool b => some (if b then 1 else 0)
  | _ => none

/-- Model of Python `round(x)` on a float, as a function on exact
rationals: round half to even (banker's rounding).  Written with integer
arithmetic on the reduced numerator and denominator so that it evaluates
by kernel reduction; `Int.fdiv q.num q.den` is the floor of `q` and
`r` is the (nonnegative) remainder, so comparing `2 * r` with the
denominator compares the fractional part with one half. -/
def pyRound (q : ℚ) : ℤ :=
  let n : ℤ := q.num
  let d : ℤ := (q.den : ℤ)
  let f : ℤ := Int.fdiv n d
  let r : ℤ := n - f * d
  if 2 * r < d then f
  else if d < 2 * r then f + 1
  else if f % 2 = 0 then f else f + 1

/-- Python exceptions the script raises or observes.  `net` stands for
any non-`HTTPError` exception escaping a fetch attempt (timeouts,
connection resets, JSON decode failures); `attributeError` models `.get`
called on a non-dict inside the extractor. -/
inductive PyErr where
  | http (code : ℕ) : PyErr
  | net : PyErr
  | runtimeError (msg : String) : PyErr
  | attributeError : PyErr
deriving DecidableEq

/-- The transient HTTP status codes of `http_json` (line 77) and of the
candidate loop in `build_prices_from_wm_statistics` (line 340). -/
def TRANSIENT_CODES : List ℕ := [429, 500, 502, 503, 504]

/-- What one attempt of `http_json` observes from the network:
a decoded JSON body, an `urllib.error.HTTPError` with a status code, or
any other exception (timeout, connection reset, decode failure). -/
inductive Response where
  | success (body : Json) : Response
  | httpError (code : ℕ) : Response
  | transportError : Response

/-- Observable behaviour of one `http_json` call: its outcome, how many
attempts were issued, and the attempt indices `i` at which it executed
`time.sleep(1.5 ** i)`. -/
structure FetchTrace where
  result : Except PyErr Json
  attemptsMade : ℕ
  sleepExponents : List ℕ

/-- The retry loop of `http_json` (lines 54-84), by recursion on the
number of remaining attempts: `i` is the index of the next attempt,
`lastErr` the last recorded error, `slept` the sleep log so far.  A
transient HTTP status or a non-HTTP exception sleeps `1.5 ** i` and
moves to the next attempt; any other HTTP status raises at once; an
exhausted loop re-raises the last error. -/
def http_json_loop (responses : ℕ → Response) :
    ℕ → ℕ → Option PyErr → List ℕ → FetchTrace
  | 0, i, lastErr, slept =>
      match lastErr with
      | some e => ⟨.error e, i, slept⟩
      | none => ⟨.error (.runtimeError "http_json failed with unknown error"), i, slept⟩
  | rem + 1, i, lastErr, slept =>
      match responses i with
      | .success body => ⟨.ok body, i + 1, slept⟩
      | .httpError code =>
          if code ∈ TRANSIENT_CODES then
            http_json_loop responses rem (i + 1) (some (.http code)) (slept ++ [i])
          else ⟨.error (.http code), i + 1, slept⟩
      | .transportError =>
          http_json_loop responses rem (i + 1) (some .net) (slept ++ [i])

/-- Model of `http_json(url, timeout, attempts)` (lines 48-88), run
against the sequence of responses the successive attempts would
observe; the script always calls it with its default retry ceiling of
4 attempts. -/
def http_json (responses : ℕ → Response) (attempts : ℕ) : FetchTrace :=
  http_json_loop responses attempts 0 none []

/-- The HTTP statuses the per-item pricing call treats as
terminal-for-this-resource (line 295). -/
def TERMINAL_CODES : List ℕ := [404, 403]

/-! ## Slug derivation (`guess_wm_url_name`, `wm_url_candidates`) -/

/-- ASCII whitespace recognised by `str.strip()` (the item names are
ASCII; Python would additionally strip some Unicode spaces). -/
def isPySpace (c : Char) : Bool :=
  c = ' ' || c = '\t' || c = '\n' || c = '\r' || c = '\x0b' || c = '\x0c'

/-- Model of `str.strip()`: drop leading and trailing whitespace. -/
def pyStrip (cs : List Char) : List Char :=
  ((cs.dropWhile isPySpace).reverse.dropWhile isPySpace).reverse

/-- Model of `str.lower()` for ASCII letters (the item names are ASCII;
Python would additionally lower-case non-ASCII letters). -/
def toLowerAscii (c : Char) : Char :=
  if 'A' ≤ c ∧ c ≤ 'Z' then Char.ofNat (c.toNat + 32) else c

/-- One character is kept verbatim by the regex `[^a-z0-9]+` → `_`
substitution exactly when it is a lowercase letter or a digit. -/
def isLowerAlnum (c : Char) : Bool :=
  ('a' ≤ c && c ≤ 'z') || ('0' ≤ c && c ≤ '9')

/-- Model of `s.replace("&", "and")` (single-character pattern, so a
character-wise expansion is exact). -/
def replaceAmp (cs : List Char) : List Char :=
  cs.flatMap fun c => if c = '&' then ['a', 'n', 'd'] else [c]

/-- Squeeze every run of consecutive underscores to a single one.
Mapping each character outside `[a-z0-9]` to `'_'` and then squeezing
underscore runs computes `re.sub(r"[^a-z0-9]+", "_", s)` (a maximal
excluded run becomes an underscore run, squeezed to one), and also
absorbs the follow-up `re.sub(r"_+", "_", s)`. -/
def squeezeUnderscores : List Char → List Char
  | [] => []
  | [c] => [c]
  | a :: b :: rest =>
      if a = '_' && b = '_' then squeezeUnderscores (b :: rest)
      else a :: squeezeUnderscores (b :: rest)

/-- Model of `.strip("_")`: drop leading and trailing underscores. -/
def stripUnderscores (cs : List Char) : List Char :=
  ((cs.dropWhile (· = '_')).reverse.dropWhile (· = '_')).reverse

/-- Model of `guess_wm_url_name(item_name)` (lines 216-225): strip,
lower-case, replace `&` with `and`, replace runs outside `[a-z0-9]`
with a single underscore, squeeze and strip underscores. -/
def guess_wm_url_name (item_name : String) : String :=
  let s1 := (pyStrip item_name.data).map toLowerAscii
  let s2 := replaceAmp s1
  let s3 := s2.map fun c => if isLowerAlnum c then c else '_'
  String.mk (stripUnderscores (squeezeUnderscores s3))

/-- Model of `WM_URL_OVERRIDES` (lines 229-232): shipped empty. -/
def WM_URL_OVERRIDES : List (String × String) := []

/-- Lookup in the overrides dict, `WM_URL_OVERRIDES.get(item_name)`. -/
def overridesLookup : List (String × String) → String → Option String
  | [], _ => none
  | (k, v) :: rest, key => if k = key then some v else overridesLookup rest key

/-- Boolean test that `pat` begins the list `l` (used for substring
search and replacement). -/
def leadsWith : List Char → List Char → Bool
  | [], _ => true
  | _ :: _, [] => false
  | p :: ps, c :: cs => p = c && leadsWith ps cs

/-- Boolean test that `pat` ends the list `l` (`str.endswith`). -/
def trailsWith (pat l : List Char) : Bool :=
  leadsWith pat.reverse l.reverse

/-- Boolean test that `pat` occurs somewhere in `l` (Python `in`). -/
def hasSub (pat : List Char) : List Char → Bool
  | [] => pat.isEmpty
  | c :: rest => leadsWith pat (c :: rest) || hasSub pat rest

/-- Model of `str.replace(pat, repl)`: replace every non-overlapping
occurrence of `pat`, scanning left to right. -/
def replaceAll (pat repl : List Char) : List Char → List Char
  | [] => []
  | c :: rest =>
      if h : pat ≠ [] ∧ leadsWith pat (c :: rest) then
        repl ++ replaceAll pat repl ((c :: rest).drop pat.length)
      else
        c :: replaceAll pat repl rest
  termination_by l => l.length
  decreasing_by
    · simp only [List.length_drop, List.length_cons]
      have : pat.length ≥ 1 := List.length_pos.mpr h.1
      omega
    · simp only [List.length_cons]
      omega

/-- The receiver/reciever misspelling suffix and its variants. -/
def RECEIVER_SUFFIX : List Char := "_receiver".data

/-- The base slug of `wm_url_candidates` (line 241):
`WM_URL_OVERRIDES.get(item_name) or guess_wm_url_name(item_name)`,
where Python `or` falls through on a falsy (empty) override. -/
def wm_base_slug (item_name : String) : String :=
  match overridesLookup WM_URL_OVERRIDES item_name with
  | some s => if s ≠ "" then s else guess_wm_url_name item_name
  | none => guess_wm_url_name item_name

/-- The candidate list of `wm_url_candidates` before de-duplication
(lines 242-250): the base slug, then a `_reciever` variant when the
base ends with `_receiver`, then a variant replacing an interior
`_receiver_`. -/
def candidateVariants (base : String) : List String :=
  [base] ++
    (if trailsWith RECEIVER_SUFFIX base.data then
      [String.mk ((base.data.take (base.data.length - RECEIVER_SUFFIX.length)) ++
        "_reciever".data)]
    else []) ++
    (if hasSub "_receiver_".data base.data then
      [String.mk (replaceAll "_receiver_".data "_reciever_".data base.data)]
    else [])

/-- The final loop of `wm_url_candidates` (lines 253-259): keep `c`
when it is truthy (non-empty) and not seen yet, preserving order. -/
def dedupeKeepOrder : List String → List String → List String
  | [], _ => []
  | c :: rest, seen =>
      if c ≠ "" ∧ c ∉ seen then c :: dedupeKeepOrder rest (c :: seen)
      else dedupeKeepOrder rest seen

/-- Model of `wm_url_candidates(item_name)` (lines 235-259). -/
def wm_url_candidates (item_name : String) : List String :=
  dedupeKeepOrder (candidateVariants (wm_base_slug item_name)) []

-- sanity checks for the slug deriver
example : guess_wm_url_name "Soma Prime Receiver" = "soma_prime_receiver" := by decide
example : wm_url_candidates "Soma Prime Receiver" =
    ["soma_prime_receiver", "soma_prime_reciever"] := by decide
example : guess_wm_url_name "  Ash & Fire!!  " = "ash_and_fire" := by decide
example : wm_url_candidates "!!!" = [] := by decide

/-! ## Price extraction (`_median_from_stats_section`,
`wm_price_from_statistics`) -/

/-- Lines 267-277 of `_median_from_stats_section`: reject a non-dict
section, read the window (`stats_section.get(window_key) or []`, so a
falsy value becomes the empty list), reject a non-list or empty window,
take the last record, reject a non-dict record, read its `median` and
reject a missing one (`med is None`, covering both an absent key and an
explicit JSON null). -/
def lastMedianValue (stats_section : Json) (window_key : String) : Option Json :=
  match stats_section with
  | .obj _ =>
      let got := (stats_section.lookup window_key).getD .null
      let arr := if got.truthy then got else .arr []
      match arr with
      | .arr [] => none
      | .arr (x :: xs) =>
          match (x :: xs).getLast (by simp) with
          | .obj fs =>
              match (lookupField fs "median").getD .null with
              | .null => none
              | med => some med
          | _ => none
      | _ => none
  | _ => none

/-- Model of `_median_from_stats_section(stats_section, window_key)`
(lines 262-281): locate the last record's median, then
`int(round(float(med)))`, whose `try` block turns any conversion
failure into `None`. -/
def _median_from_stats_section (stats_section : Json) (window_key : String) :
    Option ℤ :=
  match lastMedianValue stats_section window_key with
  | none => none
  | some med =>
      match pyFloat med with
      | none => none
      | some q => some (pyRound q)

/-- Lines 300-302 of `wm_price_from_statistics`: `payload.get("payload",
{})` followed by `.get` for both statistics sections.  `.get` on a
non-dict raises `AttributeError` (caught further out); a missing section
key passes Python `None` on, modelled as `Json.null`. -/
def wm_sections (payload : Json) : Except PyErr (Json × Json) :=
  match payload with
  | .obj _ =>
      let p := (payload.lookup "payload").getD (.obj [])
      match p with
      | .obj _ =>
          .ok ((p.lookup "statistics_closed").getD .null,
               (p.lookup "statistics_open").getD .null)
      | _ => .error .attributeError
  | _ => .error .attributeError

/-- The body of the `try` block at lines 299-320: the ordered fallback
chain closed/90days, open/90days, closed/48hours, open/48hours. -/
def wm_extract_body (payload : Json) : Except PyErr (Option ℤ) :=
  match wm_sections payload with
  | .error e => .error e
  | .ok (closed, open_) =>
      .ok (match _median_from_stats_section closed "90days" with
        | some v => some v
        | none =>
          match _median_from_stats_section open_ "90days" with
          | some v => some v
          | none =>
            match _median_from_stats_section closed "48hours" with
            | some v => some v
            | none => _median_from_stats_section open_ "48hours")

/-- The extraction part of `wm_price_from_statistics` (lines 299-322):
the fallback chain wrapped in `try ... except Exception: return None`. -/
def wm_extract_price (payload : Json) : Option ℤ :=
  match wm_extract_body payload with
  | .ok v => v
  | .error _ => none

/-- Model of `wm_price_from_statistics(url_name)` (lines 284-322).
`env url_name` is the outcome of `http_json` on the statistics URL built
from `url_name`: either a decoded document or the exception `http_json`
raised.  An `HTTPError` with status 404 or 403 becomes `None`; any
other exception propagates. -/
def wm_price_from_statistics (env : String → Except PyErr Json)
    (url_name : String) : Except PyErr (Option ℤ) :=
  match env url_name with
  | .error (.http code) =>
      if code ∈ TERMINAL_CODES then .ok none else .error (.http code)
  | .error e => .error e
  | .ok payload => .ok (wm_extract_price payload)

/-! ## Batch resolution (`build_prices_from_wm_statistics`, `main`) -/

/-- One reward entry of the UI-friendly relic records that
`build_relics_min` constructs (lines 161-183); every field is present
and well-typed there by construction. -/
structure RewardMin where
  item : String
  chance : Option ℚ
  rtype : String

/-- One record of `relics_min` as constructed by `build_relics_min`. -/
structure RelicMin where
  tier : String
  name : String
  vaulted : Bool
  rewards : List RewardMin

/-- Lexicographic comparison of strings by code point, the order Python
`sorted` uses on strings. -/
def charListLe : List Char → List Char → Bool
  | [], _ => true
  | _ :: _, [] => false
  | c :: cs, d :: ds => if c = d then charListLe cs ds else decide (c < d)

/-- Insert into a sorted list of strings (code-point order). -/
def insertSorted (x : String) : List String → List String
  | [] => [x]
  | y :: ys => if charListLe x.data y.data then x :: y :: ys else y :: insertSorted x ys

/-- Insertion sort on strings; the result of Python `sorted` on a set of
strings is exactly the sorted list of its distinct members. -/
def sortStrings : List String → List String
  | [] => []
  | x :: xs => insertSorted x (sortStrings xs)

/-- Model of `unique_reward_items(relics_min)` (lines 204-211): collect
every truthy reward item name into a set and return it sorted. -/
def unique_reward_items (relics_min : List RelicMin) : List String :=
  sortStrings (((relics_min.flatMap fun r => r.rewards.map (·.item)).filter
    (fun it => it ≠ "")).dedup)

/-- The candidate loop of `build_prices_from_wm_statistics` (lines
336-348): try slugs in order; a price stops the loop; `None` moves to
the next candidate; a transient `HTTPError` pauses and abandons the item
(leaving it unpriced); any other exception propagates and aborts the
batch. -/
def try_candidates (env : String → Except PyErr Json) :
    List String → Except PyErr (Option ℤ)
  | [] => .ok none
  | c :: rest =>
      match wm_price_from_statistics env c with
      | .error (.http code) =>
          if code ∈ TRANSIENT_CODES then .ok none
          else .error (.http code)
      | .error e => .error e
      | .ok (some v) => .ok (some v)
      | .ok none => try_candidates env rest

/-- The accumulator loop of `build_prices_from_wm_statistics` (lines
332-358): each item ends up either appended to `prices` (with the first
candidate's price) or appended to `missing_items`. -/
def price_loop (env : String → Except PyErr Json) :
    List String → List (String × ℤ) → List String →
    Except PyErr (List (String × ℤ) × List String)
  | [], prices, missing => .ok (prices, missing)
  | item :: rest, prices, missing =>
      match try_candidates env (wm_url_candidates item) with
      | .error e => .error e
      | .ok (some v) => price_loop env rest (prices ++ [(item, v)]) missing
      | .ok none => price_loop env rest prices (missing ++ [item])

/-- Model of `build_prices_from_wm_statistics(relics_min)` (lines
325-361): price the sorted distinct reward items one by one.  The
mapping is represented as the list of insertions (keys distinct because
the iterated list is). -/
def build_prices_from_wm_statistics (env : String → Except PyErr Json)
    (relics_min : List RelicMin) :
    Except PyErr (List (String × ℤ) × List String) :=
  price_loop env (unique_reward_items relics_min) [] []

/-- The minimum number of priced items `main` accepts (line 395). -/
def MIN_PRICES : ℕ := 25

/-- The pricing tail of `main` (lines 385-398): run the batch, then fail
with a `RuntimeError` when fewer than 25 items were priced. -/
def main_price_gate (env : String → Except PyErr Json)
    (relics_min : List RelicMin) :
    Except PyErr (List (String × ℤ) × List String) :=
  match build_prices_from_wm_statistics env relics_min with
  | .error e => .error e
  | .ok (prices, missing) =>
      if prices.length < MIN_PRICES then
        .error (.runtimeError "Too few prices. warframe.market calls may be failing, or endpoint changed.")
      else .ok (prices, missing)

/-! ## Spec-side extractor and concrete fixtures -/

/-- The price extractor as §4.3 of the spec words it, for comparison
with the implementation: an ordered fallback chain over the two sections
and two windows, every malformed or missing stage treated as
unavailable, never an error.  (Stated over the same section accessor;
the point of the comparison is that the implementation's `try/except`
catch converts every raising path into `none`.) -/
def extract_price_spec (doc : Json) : Option ℤ :=
  match wm_sections doc with
  | .error _ => none
  | .ok (closed, open_) =>
      (_median_from_stats_section closed "90days").orElse fun _ =>
        (_median_from_stats_section open_ "90days").orElse fun _ =>
          (_median_from_stats_section closed "48hours").orElse fun _ =>
            _median_from_stats_section open_ "48hours"

/-- A statistics document holding only a 48-hour closed median of 50. -/
def doc48 : Json :=
  .obj [("payload", .obj [("statistics_closed",
    .obj [("48hours", .arr [.obj [("median", .num 50)]])])])]

/-- A document with a 90-day closed median of 30 and a 48-hour open
median of 7. -/
def docBoth : Json :=
  .obj [("payload", .obj [
    ("statistics_closed", .obj [("90days", .arr [.obj [("median", .num 30)]])]),
    ("statistics_open", .obj [("48hours", .arr [.obj [("median", .num 7)]])])])]

/-- A 90-day closed section whose last median is 12.6. -/
def sectionTwelveSix : Json :=
  .obj [("90days", .arr [.obj [("median", .num (mkRat 63 5))]])]

/-- A 90-day closed section whose last median is -5. -/
def sectionNegMedian : Json :=
  .obj [("90days", .arr [.obj [("median", .num (-5))]])]

/-- A document whose only median, in the 90-day closed window, is -5. -/
def docNegMedian : Json :=
  .obj [("payload", .obj [("statistics_closed", sectionNegMedian)])]

/-- A 90-day closed section whose last median is 12.5. -/
def sectionHalfLo : Json :=
  .obj [("90days", .arr [.obj [("median", .num (mkRat 25 2))]])]

/-- A 90-day closed section whose last median is 13.5. -/
def sectionHalfHi : Json :=
  .obj [("90days", .arr [.obj [("median", .num (mkRat 27 2))]])]

/-- The single-item catalog of the end-to-end scenario. -/
def relicScenario : RelicMin :=
  ⟨"Axi", "A1", true, [⟨"Soma Prime Receiver", none, "Rare"⟩]⟩

/-- The network of the end-to-end scenario: the first slug candidate
404s, the misspelled second candidate has only 48-hour closed data. -/
def envScenario : String → Except PyErr Json := fun s =>
  if s = "soma_prime_reciever" then .ok doc48 else .error (.http 404)

-- sanity checks for the extractor and the end-to-end scenario
example : wm_extract_price doc48 = some 50 := by decide
example : wm_extract_price docBoth = some 30 := by decide
example : _median_from_stats_section sectionTwelveSix "90days" = some 13 := by decide
example : _median_from_stats_section sectionNegMedian "90days" = some (-5) := by decide
example : wm_extract_price (.arr []) = none := by decide
example : build_prices_from_wm_statistics envScenario [relicScenario] =
    .ok ([("Soma Prime Receiver", 50)], []) := rfl

-- sanity checks for the fetcher model
example : http_json (fun _ => .httpError 400) 4 = ⟨.error (.http 400), 1, []⟩ := rfl
example : http_json (fun _ => .httpError 429) 4 =
    ⟨.error (.http 429), 4, [0, 1, 2, 3]⟩ := rfl
example : http_json (fun _ => .success (.num 1)) 4 = ⟨.ok (.num 1), 1, []⟩ := rfl

/-! ## Helper lemmas -/

/-- The rounding of `pyRound` never goes below the floor, so a
non-negative rational rounds to a non-negative integer. -/
theorem pyRound_nonneg {q : ℚ} (hq : 0 ≤ q) : 0 ≤ pyRound q := by
  have hf : 0 ≤ Int.fdiv q.num q.den :=
    Int.fdiv_nonneg (Rat.num_nonneg.mpr hq) (Int.natCast_nonneg _)
  unfold pyRound
  dsimp only
  split
  · exact hf
  · split
    · omega
    · split <;> omega

/-- On a rational that is exactly an integer plus one half (reduced
numerator `2 * z + 1`, denominator 2), `pyRound` returns the even
neighbour. -/
theorem pyRound_odd_half (z : ℤ) (q : ℚ) (hnum : q.num = 2 * z + 1)
    (hden : q.den = 2) : pyRound q = if z % 2 = 0 then z else z + 1 := by
  have hd : (q.den : ℤ) = 2 := by rw [hden]; rfl
  have hf : Int.fdiv (2 * z + 1) 2 = z := by
    rw [Int.fdiv_eq_ediv _ (by norm_num)]
    omega
  unfold pyRound
  dsimp only
  rw [hnum, hd, hf]
  have hr : 2 * z + 1 - z * 2 = 1 := by ring
  rw [hr]
  norm_num

/-- Unfold `_median_from_stats_section` into locate-convert-round
form. -/
theorem _median_eq (s : Json) (w : String) :
    _median_from_stats_section s w =
      ((lastMedianValue s w).bind pyFloat).map pyRound := by
  unfold _median_from_stats_section
  cases hm : lastMedianValue s w with
  | none => rfl
  | some med =>
      dsimp only [Option.bind]
      cases hq : pyFloat med <;> simp [hq]

/-! ## Claims about the price extractor (C3, C4, C9, C10) -/

/-- C3: the price extractor applies its fallback chain in the order
closed/90days, open/90days, closed/48hours, open/48hours, returning the
first stage that yields a value; in particular any document whose
closed 90-day stage yields `v` extracts to `v` (never the 48-hour open
value), as on `docBoth` where closed/90days is 30 and open/48hours
is 7. -/
theorem fallback_order_respected :
    (∀ doc closed open_, wm_sections doc = .ok (closed, open_) →
      wm_extract_price doc =
        ((_median_from_stats_section closed "90days").orElse fun _ =>
          (_median_from_stats_section open_ "90days").orElse fun _ =>
            (_median_from_stats_section closed "48hours").orElse fun _ =>
              _median_from_stats_section open_ "48hours")) ∧
    (∀ doc closed open_ v, wm_sections doc = .ok (closed, open_) →
      _median_from_stats_section closed "90days" = some v →
      wm_extract_price doc = some v) ∧
    wm_extract_price docBoth = some 30 := by
  have key : ∀ doc closed open_, wm_sections doc = .ok (closed, open_) →
      wm_extract_price doc =
        ((_median_from_stats_section closed "90days").orElse fun _ =>
          (_median_from_stats_section open_ "90days").orElse fun _ =>
            (_median_from_stats_section closed "48hours").orElse fun _ =>
              _median_from_stats_section open_ "48hours") := by
    intro doc closed open_ hs
    unfold wm_extract_price wm_extract_body
    rw [hs]
    cases h1 : _median_from_stats_section closed "90days" <;>
      cases h2 : _median_from_stats_section open_ "90days" <;>
        cases h3 : _median_from_stats_section closed "48hours" <;>
          simp [h1, h2, h3, Option.orElse]
  refine ⟨key, ?_, by decide⟩
  intro doc closed open_ v hs h90
  rw [key doc closed open_ hs, h90]
  rfl

/-- C4: the extractor is total: on every document, including malformed
ones, the `try/except` wrapper makes it agree with the spec's pure
fallback chain (so it never raises), and each malformation category
(non-dict payload, non-dict `payload` field, missing sections, non-dict
section, non-list window, empty window, non-dict record, missing
median, non-numeric median) yields `none`. -/
theorem extractor_total_and_matches_spec :
    (∀ doc, wm_extract_price doc = extract_price_spec doc) ∧
    wm_extract_price Json.null = none ∧
    wm_extract_price (.arr [.num 3]) = none ∧
    wm_extract_price (.obj []) = none ∧
    wm_extract_price (.obj [("payload", .num 1)]) = none ∧
    wm_extract_price (.obj [("payload", .obj [])]) = none ∧
    wm_extract_price (.obj [("payload", .obj [("statistics_closed", .num 2)])]) = none ∧
    wm_extract_price (.obj [("payload",
      .obj [("statistics_closed", .obj [("90days", .num 2)])])]) = none ∧
    wm_extract_price (.obj [("payload",
      .obj [("statistics_closed", .obj [("90days", .arr [])])])]) = none ∧
    wm_extract_price (.obj [("payload",
      .obj [("statistics_closed", .obj [("90days", .arr [.num 1])])])]) = none ∧
    wm_extract_price (.obj [("payload",
      .obj [("statistics_closed", .obj [("90days", .arr [.obj []])])])]) = none ∧
    wm_extract_price (.obj [("payload",
      .obj [("statistics_closed",
        .obj [("90days", .arr [.obj [("median", .str "abc")]])])])]) = none := by
  refine ⟨?_, by decide, by decide, by decide, by decide, by decide, by decide,
    by decide, by decide, by decide, by decide, by decide⟩
  intro doc
  unfold wm_extract_price wm_extract_body extract_price_spec
  cases hs : wm_sections doc with
  | error e => rfl
  | ok sections =>
      obtain ⟨closed, open_⟩ := sections
      cases h1 : _median_from_stats_section closed "90days" <;>
        cases h2 : _median_from_stats_section open_ "90days" <;>
          cases h3 : _median_from_stats_section closed "48hours" <;>
            simp [h1, h2, h3, Option.orElse]

/-- C9 counterexample: the claim "whenever the price extractor returns a
value, that value is a non-negative integer" is false: on a document
whose median is -5 the extractor returns -5, a negative value. -/
theorem negative_median_gives_negative_price :
    wm_extract_price docNegMedian = some (-5) ∧ (-5 : ℤ) < 0 := by
  exact ⟨by decide, by decide⟩

/-- C9 (amended): whenever the section extractor returns a value, that
value is the median of the window's last record rounded to the nearest
integer, and it is non-negative whenever that median is non-negative;
fractional medians round to nearest (12.6 yields 13). -/
theorem price_is_rounded_median :
    (∀ s w v, _median_from_stats_section s w = some v →
      ∃ med q, lastMedianValue s w = some med ∧ pyFloat med = some q ∧
        v = pyRound q ∧ (0 ≤ q → 0 ≤ v)) ∧
    _median_from_stats_section sectionTwelveSix "90days" = some 13 := by
  refine ⟨?_, by decide⟩
  intro s w v h
  rw [_median_eq] at h
  simp only [Option.map_eq_some', Option.bind_eq_some] at h
  obtain ⟨q, ⟨med, hm, hq⟩, hv⟩ := h
  exact ⟨med, q, hm, hq, hv.symm, fun h0 => hv ▸ pyRound_nonneg h0⟩

/-- C10: at a median exactly halfway between two integers the extractor
rounds half to even: any rational with reduced form `(2z+1)/2` rounds
to the even neighbour, and concretely a median of 12.5 yields 12 while
a median of 13.5 yields 14. -/
theorem median_half_rounds_to_even :
    (∀ (z : ℤ) (q : ℚ), q.num = 2 * z + 1 → q.den = 2 →
      pyRound q = if z % 2 = 0 then z else z + 1) ∧
    _median_from_stats_section sectionHalfLo "90days" = some 12 ∧
    _median_from_stats_section sectionHalfHi "90days" = some 14 := by
  exact ⟨pyRound_odd_half, by decide, by decide⟩

/-! ## Claims about the fetcher (C5, C6) -/

/-- One transient step of the retry loop: a transient HTTP status at
attempt `i` records the error, sleeps `1.5 ** i`, and moves on. -/
theorem http_json_loop_transient_step (responses : ℕ → Response)
    (rem i : ℕ) (lastErr : Option PyErr) (slept : List ℕ) (code : ℕ)
    (hresp : responses i = .httpError code) (hmem : code ∈ TRANSIENT_CODES) :
    http_json_loop responses (rem + 1) i lastErr slept =
      http_json_loop responses rem (i + 1) (some (.http code)) (slept ++ [i]) := by
  simp [http_json_loop, hresp, hmem]

/-- One transport-error step of the retry loop. -/
theorem http_json_loop_transport_step (responses : ℕ → Response)
    (rem i : ℕ) (lastErr : Option PyErr) (slept : List ℕ)
    (hresp : responses i = .transportError) :
    http_json_loop responses (rem + 1) i lastErr slept =
      http_json_loop responses rem (i + 1) (some .net) (slept ++ [i]) := by
  simp [http_json_loop, hresp]

/-- C5: on four transient responses in a row, `http_json` makes exactly
its four attempts, sleeping `1.5 ** i` after attempt `i`, and then
raises the last encountered error; on a 404 response it raises on the
first attempt with no retry and no sleep. -/
theorem transient_retries_then_raises :
    (∀ (responses : ℕ → Response) (c0 c1 c2 c3 : ℕ),
      responses 0 = .httpError c0 → responses 1 = .httpError c1 →
      responses 2 = .httpError c2 → responses 3 = .httpError c3 →
      c0 ∈ TRANSIENT_CODES → c1 ∈ TRANSIENT_CODES →
      c2 ∈ TRANSIENT_CODES → c3 ∈ TRANSIENT_CODES →
      http_json responses 4 = ⟨.error (.http c3), 4, [0, 1, 2, 3]⟩) ∧
    (∀ responses : ℕ → Response, responses 0 = .httpError 404 →
      http_json responses 4 = ⟨.error (.http 404), 1, []⟩) := by
  constructor
  · intro responses c0 c1 c2 c3 h0 h1 h2 h3 t0 t1 t2 t3
    show http_json_loop responses 4 0 none [] = _
    rw [http_json_loop_transient_step responses 3 0 none [] c0 h0 t0,
      http_json_loop_transient_step responses 2 1 _ _ c1 h1 t1,
      http_json_loop_transient_step responses 1 2 _ _ c2 h2 t2,
      http_json_loop_transient_step responses 0 3 _ _ c3 h3 t3]
    rfl
  · intro responses h0
    show http_json_loop responses 4 0 none [] = _
    simp [http_json_loop, h0, TRANSIENT_CODES]

/-- C6 counterexample: the claim that an HTTP status outside both the
transient set and the terminal set is retried up to the ceiling is
false: a constant-400 response sequence is propagated after a single
attempt, with no retry. -/
theorem non_transient_http_no_retry_counterexample :
    http_json (fun _ => .httpError 400) 4 = ⟨.error (.http 400), 1, []⟩ ∧
    (1 : ℕ) < 4 :=
  ⟨rfl, by decide⟩

/-- C6 (amended): transport-level errors (timeout, connection reset) are
retried up to the attempt ceiling and then propagated, but an HTTP
error status outside the transient set {429, 500, 502, 503, 504} — for
example 400 or 401, and likewise 404 or 403 — propagates from
`http_json` immediately, on the attempt where it occurs, without
retry. -/
theorem transport_retried_http_immediate :
    (∀ responses : ℕ → Response,
      responses 0 = .transportError → responses 1 = .transportError →
      responses 2 = .transportError → responses 3 = .transportError →
      http_json responses 4 = ⟨.error .net, 4, [0, 1, 2, 3]⟩) ∧
    (∀ (responses : ℕ → Response) (c : ℕ), c ∉ TRANSIENT_CODES →
      responses 0 = .httpError c →
      http_json responses 4 = ⟨.error (.http c), 1, []⟩) := by
  constructor
  · intro responses h0 h1 h2 h3
    show http_json_loop responses 4 0 none [] = _
    rw [http_json_loop_transport_step responses 3 0 none [] h0,
      http_json_loop_transport_step responses 2 1 _ _ h1,
      http_json_loop_transport_step responses 1 2 _ _ h2,
      http_json_loop_transport_step responses 0 3 _ _ h3]
    rfl
  · intro responses c hc h0
    show http_json_loop responses 4 0 none [] = _
    simp [http_json_loop, h0, hc]

/-! ## Claims about the slug deriver (C7) -/

/-- The candidate list before de-duplication always starts with the
base slug. -/
theorem candidateVariants_cons (base : String) :
    ∃ t, candidateVariants base = base :: t :=
  ⟨_, rfl⟩

/-- A truthy head not yet seen is kept by the de-duplication loop. -/
theorem dedupeKeepOrder_cons_keep (c : String) (rest : List String)
    (h : c ≠ "") :
    dedupeKeepOrder (c :: rest) [] = c :: dedupeKeepOrder rest [c] := by
  simp [dedupeKeepOrder, h]

/-- C7 counterexample: the claim that the slug deriver returns at least
one candidate for every input is false: a name with no alphanumeric
characters normalises to the empty slug, which the de-duplication loop
drops as falsy, leaving no candidate at all. -/
theorem candidates_empty_for_symbol_name :
    wm_url_candidates "!!!" = [] ∧ guess_wm_url_name "!!!" = "" := by
  exact ⟨by decide, by decide⟩

/-- C7 (amended): whenever the base slug (override or derived) is
non-empty, `wm_url_candidates` returns a non-empty ordered list whose
first element is the base slug; a name whose base slug is empty yields
an empty candidate list. -/
theorem candidates_head_base (item : String) (h : wm_base_slug item ≠ "") :
    wm_url_candidates item ≠ [] ∧
    (wm_url_candidates item).head? = some (wm_base_slug item) := by
  obtain ⟨t, ht⟩ := candidateVariants_cons (wm_base_slug item)
  unfold wm_url_candidates
  rw [ht, dedupeKeepOrder_cons_keep _ _ h]
  exact ⟨by simp, rfl⟩

/-! ## Claims about the batch resolver (C1, C2, C8) -/

/-- The candidate loop priced this item (`v is not None` on exit). -/
def item_priced (env : String → Except PyErr Json) (item : String) : Bool :=
  match try_candidates env (wm_url_candidates item) with
  | .ok (some _) => true
  | _ => false

/-- The candidate loop completed without a price for this item. -/
def item_unpriced (env : String → Except PyErr Json) (item : String) : Bool :=
  match try_candidates env (wm_url_candidates item) with
  | .ok none => true
  | _ => false

/-- An item cannot be both priced and unpriced. -/
theorem item_not_both (env : String → Except PyErr Json) (x : String) :
    ¬(item_priced env x = true ∧ item_unpriced env x = true) := by
  unfold item_priced item_unpriced
  cases try_candidates env (wm_url_candidates x) with
  | error e => simp
  | ok v => cases v <;> simp

/-- When the batch loop completes normally, every processed item was
either priced or left unpriced by its candidate loop (no candidate loop
raised). -/
theorem price_loop_ok_status (env : String → Except PyErr Json) :
    ∀ (L : List String) (p : List (String × ℤ)) (m : List String)
      (P : List (String × ℤ)) (M : List String),
      price_loop env L p m = .ok (P, M) →
      ∀ x ∈ L, item_priced env x = true ∨ item_unpriced env x = true
  | [], _, _, _, _, _, x, hx => by simp at hx
  | item :: rest, p, m, P, M, h, x, hx => by
      rw [price_loop] at h
      cases htr : try_candidates env (wm_url_candidates item) with
      | error e => rw [htr] at h; simp at h
      | ok v =>
          rw [htr] at h
          rcases List.mem_cons.mp hx with heq | hrest
          · subst heq
            cases v with
            | some val => exact Or.inl (by simp [item_priced, htr])
            | none => exact Or.inr (by simp [item_unpriced, htr])
          · cases v with
            | some val =>
                exact price_loop_ok_status env rest (p ++ [(item, val)]) m P M h x hrest
            | none =>
                exact price_loop_ok_status env rest p (m ++ [item]) P M h x hrest

/-- Membership characterisation of the batch loop's accumulators: on
normal completion, the priced keys are the initial ones plus the
processed items whose candidate loop priced them, and the missing list
is the initial one plus the processed items left unpriced. -/
theorem price_loop_ok_mem (env : String → Except PyErr Json) :
    ∀ (L : List String) (p : List (String × ℤ)) (m : List String)
      (P : List (String × ℤ)) (M : List String),
      price_loop env L p m = .ok (P, M) →
      ∀ x : String,
        (x ∈ P.map Prod.fst ↔
          x ∈ p.map Prod.fst ∨ (x ∈ L ∧ item_priced env x = true)) ∧
        (x ∈ M ↔ x ∈ m ∨ (x ∈ L ∧ item_unpriced env x = true))
  | [], p, m, P, M, h, x => by
      simp only [price_loop, Except.ok.injEq, Prod.mk.injEq] at h
      obtain ⟨hp, hm⟩ := h
      subst hp; subst hm
      simp
  | item :: rest, p, m, P, M, h, x => by
      rw [price_loop] at h
      cases htr : try_candidates env (wm_url_candidates item) with
      | error e => rw [htr] at h; simp at h
      | ok v =>
          rw [htr] at h
          cases v with
          | some val =>
              have hpi : item_priced env item = true := by simp [item_priced, htr]
              have IH := price_loop_ok_mem env rest (p ++ [(item, val)]) m P M h x
              obtain ⟨IH1, IH2⟩ := IH
              simp only [List.map_append, List.map_cons, List.map_nil,
                List.mem_append, List.mem_cons, List.mem_singleton,
                List.not_mem_nil, or_false] at IH1
              constructor
              · constructor
                · intro hx
                  rcases IH1.mp hx with (hp | heq) | ⟨hr, hpr⟩
                  · exact Or.inl hp
                  · exact Or.inr ⟨List.mem_cons.mpr (Or.inl heq), heq ▸ hpi⟩
                  · exact Or.inr ⟨List.mem_cons.mpr (Or.inr hr), hpr⟩
                · intro hx
                  apply IH1.mpr
                  rcases hx with hp | ⟨hmem, hpr⟩
                  · exact Or.inl (Or.inl hp)
                  · rcases List.mem_cons.mp hmem with heq | hr
                    · exact Or.inl (Or.inr heq)
                    · exact Or.inr ⟨hr, hpr⟩
              · constructor
                · intro hx
                  rcases IH2.mp hx with hm | ⟨hr, hu⟩
                  · exact Or.inl hm
                  · exact Or.inr ⟨List.mem_cons.mpr (Or.inr hr), hu⟩
                · intro hx
                  apply IH2.mpr
                  rcases hx with hm | ⟨hmem, hu⟩
                  · exact Or.inl hm
                  · rcases List.mem_cons.mp hmem with heq | hr
                    · exact absurd ⟨hpi, heq ▸ hu⟩ (item_not_both env item)
                    · exact Or.inr ⟨hr, hu⟩
          | none =>
              have hui : item_unpriced env item = true := by simp [item_unpriced, htr]
              have IH := price_loop_ok_mem env rest p (m ++ [item]) P M h x
              obtain ⟨IH1, IH2⟩ := IH
              simp only [List.mem_append, List.mem_singleton] at IH2
              constructor
              · constructor
                · intro hx
                  rcases IH1.mp hx with hp | ⟨hr, hpr⟩
                  · exact Or.inl hp
                  · exact Or.inr ⟨List.mem_cons.mpr (Or.inr hr), hpr⟩
                · intro hx
                  apply IH1.mpr
                  rcases hx with hp | ⟨hmem, hpr⟩
                  · exact Or.inl hp
                  · rcases List.mem_cons.mp hmem with heq | hr
                    · exact absurd ⟨heq ▸ hpr, hui⟩ (item_not_both env item)
                    · exact Or.inr ⟨hr, hpr⟩
              · constructor
                · intro hx
                  rcases IH2.mp hx with (hm | heq) | ⟨hr, hu⟩
                  · exact Or.inl hm
                  · exact Or.inr ⟨List.mem_cons.mpr (Or.inl heq), heq ▸ hui⟩
                  · exact Or.inr ⟨List.mem_cons.mpr (Or.inr hr), hu⟩
                · intro hx
                  apply IH2.mpr
                  rcases hx with hm | ⟨hmem, hu⟩
                  · exact Or.inl (Or.inl hm)
                  · rcases List.mem_cons.mp hmem with heq | hr
                    · exact Or.inl (Or.inr heq)
                    · exact Or.inr ⟨hr, hu⟩

/-- C1: when the batch resolver completes normally, the priced map and
the missing list partition the distinct item-name set: a name is in one
of them exactly when it is a distinct reward item of the input, and
never in both. -/
theorem prices_missing_partition (env : String → Except PyErr Json)
    (relics : List RelicMin) (P : List (String × ℤ)) (M : List String)
    (hrun : build_prices_from_wm_statistics env relics = .ok (P, M))
    (name : String) :
    (name ∈ unique_reward_items relics ↔
      (name ∈ P.map Prod.fst ∨ name ∈ M)) ∧
    ¬(name ∈ P.map Prod.fst ∧ name ∈ M) := by
  have hmem := price_loop_ok_mem env (unique_reward_items relics) [] [] P M hrun name
  have hstat := price_loop_ok_status env (unique_reward_items relics) [] [] P M hrun
  simp only [List.map_nil, List.not_mem_nil, false_or] at hmem
  obtain ⟨h1, h2⟩ := hmem
  constructor
  · constructor
    · intro hL
      rcases hstat name hL with hp | hu
      · exact Or.inl (h1.mpr ⟨hL, hp⟩)
      · exact Or.inr (h2.mpr ⟨hL, hu⟩)
    · intro hPM
      rcases hPM with hP | hM
      · exact (h1.mp hP).1
      · exact (h2.mp hM).1
  · rintro ⟨hP, hM⟩
    exact item_not_both env name ⟨(h1.mp hP).2, (h2.mp hM).2⟩

/-- C2: a 404 or 403 outcome at the per-item pricing call is "no data
for this candidate" (returns `None` instead of raising); the candidate
loop then moves to the next candidate, the first candidate yielding a
price wins; and on the end-to-end scenario (first candidate 404s,
second candidate has only a 48-hour closed median of 50) the result is
a price map with that single item at 50 and an empty missing list. -/
theorem terminal_status_no_data :
    (∀ (env : String → Except PyErr Json) (url_name : String),
      env url_name = .error (.http 404) →
      wm_price_from_statistics env url_name = .ok none) ∧
    (∀ (env : String → Except PyErr Json) (url_name : String),
      env url_name = .error (.http 403) →
      wm_price_from_statistics env url_name = .ok none) ∧
    (∀ (env : String → Except PyErr Json) (c : String) (rest : List String),
      wm_price_from_statistics env c = .ok none →
      try_candidates env (c :: rest) = try_candidates env rest) ∧
    (∀ (env : String → Except PyErr Json) (c : String) (rest : List String)
      (v : ℤ), wm_price_from_statistics env c = .ok (some v) →
      try_candidates env (c :: rest) = .ok (some v)) ∧
    build_prices_from_wm_statistics envScenario [relicScenario] =
      .ok ([("Soma Prime Receiver", 50)], []) := by
  refine ⟨?_, ?_, ?_, ?_, rfl⟩
  · intro env url_name h
    unfold wm_price_from_statistics
    rw [h]
    simp [TERMINAL_CODES]
  · intro env url_name h
    unfold wm_price_from_statistics
    rw [h]
    simp [TERMINAL_CODES]
  · intro env c rest h
    rw [try_candidates, h]
  · intro env c rest v h
    rw [try_candidates, h]

/-- C8: when the batch completes normally, the pipeline tail of `main`
raises a `RuntimeError` exactly when fewer than the minimum of 25 items
were priced, and otherwise finishes with the batch result. -/
theorem too_few_prices_fails_loudly (env : String → Except PyErr Json)
    (relics : List RelicMin) (P : List (String × ℤ)) (M : List String)
    (hrun : build_prices_from_wm_statistics env relics = .ok (P, M)) :
    (P.length < MIN_PRICES →
      main_price_gate env relics = .error (.runtimeError
        "Too few prices. warframe.market calls may be failing, or endpoint changed.")) ∧
    (MIN_PRICES ≤ P.length → main_price_gate env relics = .ok (P, M)) := by
  unfold main_price_gate
  rw [hrun]
  dsimp only
  constructor
  · intro h
    rw [if_pos h]
  · intro h
    rw [if_neg (by omega)]

/-! ## Witnesses: each hypothesis-bearing claim theorem applied at a
concrete input -/

/-- Witness for C3 at `docBoth`: the closed 90-day value 30 wins over
the open 48-hour value 7. -/
theorem fallback_order_respected_witness :
    wm_extract_price docBoth = some 30 :=
  fallback_order_respected.2.1 docBoth
    (.obj [("90days", .arr [.obj [("median", .num 30)]])])
    (.obj [("48hours", .arr [.obj [("median", .num 7)]])]) 30 rfl (by decide)

/-- Witness for C9 at `sectionTwelveSix`: 13 is the rounded median. -/
theorem price_is_rounded_median_witness :
    ∃ med q, lastMedianValue sectionTwelveSix "90days" = some med ∧
      pyFloat med = some q ∧ (13 : ℤ) = pyRound q ∧ (0 ≤ q → 0 ≤ (13 : ℤ)) :=
  price_is_rounded_median.1 sectionTwelveSix "90days" 13 (by decide)

/-- Witness for C10 at 12.5: rounds down to the even neighbour 12. -/
theorem median_half_rounds_to_even_witness :
    pyRound (mkRat 25 2) = 12 := by
  simpa using median_half_rounds_to_even.1 12 (mkRat 25 2) (by decide) (by decide)

/-- Witness for C5 at a constant-429 and a constant-404 sequence. -/
theorem transient_retries_then_raises_witness :
    http_json (fun _ => .httpError 429) 4 = ⟨.error (.http 429), 4, [0, 1, 2, 3]⟩ ∧
    http_json (fun _ => .httpError 404) 4 = ⟨.error (.http 404), 1, []⟩ :=
  ⟨transient_retries_then_raises.1 (fun _ => .httpError 429) 429 429 429 429
      rfl rfl rfl rfl (by decide) (by decide) (by decide) (by decide),
    transient_retries_then_raises.2 (fun _ => .httpError 404) rfl⟩

/-- Witness for amended C6 at a constant transport-error sequence and a
constant-401 sequence. -/
theorem transport_retried_http_immediate_witness :
    http_json (fun _ => .transportError) 4 = ⟨.error .net, 4, [0, 1, 2, 3]⟩ ∧
    http_json (fun _ => .httpError 401) 4 = ⟨.error (.http 401), 1, []⟩ :=
  ⟨transport_retried_http_immediate.1 (fun _ => .transportError) rfl rfl rfl rfl,
    transport_retried_http_immediate.2 (fun _ => .httpError 401) 401 (by decide) rfl⟩

/-- Witness for amended C7 at a name with a non-empty base slug. -/
theorem candidates_head_base_witness :
    wm_base_slug "Soma Prime Receiver" ≠ "" ∧
    (wm_url_candidates "Soma Prime Receiver" ≠ [] ∧
      (wm_url_candidates "Soma Prime Receiver").head? =
        some (wm_base_slug "Soma Prime Receiver")) :=
  ⟨by decide, candidates_head_base "Soma Prime Receiver" (by decide)⟩

/-- Witness for C1 on the end-to-end scenario run. -/
theorem prices_missing_partition_witness :
    ("Soma Prime Receiver" ∈ unique_reward_items [relicScenario] ↔
      ("Soma Prime Receiver" ∈
          ([("Soma Prime Receiver", (50 : ℤ))]).map Prod.fst ∨
        "Soma Prime Receiver" ∈ ([] : List String))) ∧
    ¬("Soma Prime Receiver" ∈
        ([("Soma Prime Receiver", (50 : ℤ))]).map Prod.fst ∧
      "Soma Prime Receiver" ∈ ([] : List String)) :=
  prices_missing_partition envScenario [relicScenario]
    [("Soma Prime Receiver", (50 : ℤ))] [] rfl "Soma Prime Receiver"

/-- Witness for C2: both terminal statuses yield "no data", and the
candidate loop stops at the first candidate with a price. -/
theorem terminal_status_no_data_witness :
    wm_price_from_statistics envScenario "soma_prime_receiver" = .ok none ∧
    try_candidates envScenario ["soma_prime_reciever"] = .ok (some 50) :=
  ⟨terminal_status_no_data.1 envScenario "soma_prime_receiver" rfl,
    terminal_status_no_data.2.2.2.1 envScenario "soma_prime_reciever" [] 50 rfl⟩

/-- Witness for C8 on the end-to-end scenario run, whose single priced
item is below the threshold of 25. -/
theorem too_few_prices_fails_loudly_witness :
    main_price_gate envScenario [relicScenario] = .error (.runtimeError
      "Too few prices. warframe.market calls may be failing, or endpoint changed.") :=
  (too_few_prices_fails_loudly envScenario [relicScenario]
    [("Soma Prime Receiver", (50 : ℤ))] [] rfl).1 (by decide)

end UpdateData
